import Mathlib

/-!
Shallow embedding of `src/main.py` (YNAB → Google Sheets sync script).

Python values that flow through the script (JSON payloads, transaction
dicts, credential dicts) are modelled by the inductive `Val`.  Python
`float` is modelled by `Rat`: the only floats this program creates are
`float(v / 1000)` for an integer milliunit amount `v`, and for the
magnitudes handled here the exact rational and Python's shortest
round-trip `str` rendering agree.  Python exceptions are modelled with
`Except PyError`.  The module-level list `GSHEETS_COLUMNS`, which
`format_ynab_transactions` mutates via `header.append`, is modelled by
explicit state passing (`PyState`).  The wall clock (`time.ctime()`) and
the network (`requests.get`) are passed in as parameters.
-/

/-- A Python/JSON value as used by the script. -/
inductive Val where
  | str (s : String)
  | int (n : Int)
  | float (q : Rat)
  | bool (b : Bool)
  | dict (entries : List (String × Val))
  | list (elems : List Val)

/-- Python errors the script can raise. -/
inductive PyError where
  | fileNotFound
  | keyError
  | typeError
deriving DecidableEq, Repr

/-- `DRY_RUN = False` (src/main.py line 11). -/
def DRY_RUN : Bool := false

/-- `YNAB_FETCH_RETRIES = 3` (line 14). -/
def YNAB_FETCH_RETRIES : Nat := 3

/-- `YNAB_TOKEN_KEY = "YNAB_TOKEN"` (line 15). -/
def YNAB_TOKEN_KEY : String := "YNAB_TOKEN"

/-- `YNAB_BUDGET_ID_KEY = "YNAB_BUDGET"` (line 16). -/
def YNAB_BUDGET_ID_KEY : String := "YNAB_BUDGET"

/-- `YNAB_START_YEAR = '2021-01-01'` (line 17). -/
def YNAB_START_YEAR : String := "2021-01-01"

/-- `YNAB_BASE_URL` (line 19). -/
def YNAB_BASE_URL : String := "https://api.youneedabudget.com/v1"

/-- `YNAB_TXNS_APPROVED_ONLY = True` (line 21). -/
def YNAB_TXNS_APPROVED_ONLY : Bool := true

/-- `GSHEET_SPREADSHEET_NAME = 'Budget 2021'` (line 24). -/
def GSHEET_SPREADSHEET_NAME : String := "Budget 2021"

/-- `GSHEET_TXNS_SHEET_NAME = 'YNAB-Transactions'` (line 25). -/
def GSHEET_TXNS_SHEET_NAME : String := "YNAB-Transactions"

/-- `YNAB_COLUMNS` (line 28). -/
def YNAB_COLUMNS : List String :=
  ["date", "account_name", "payee_name", "memo", "category_name", "amount"]

/-- `GSHEETS_COLUMNS` (line 29): the initial value of the module-level
list that the formatter later mutates. -/
def GSHEETS_COLUMNS : List String :=
  ["Date", "Account", "Payee", "Memo", "Category", "Amount"]

/-- First-match association-list lookup: `d[k]` / `k in d` on a Python
dict whose entries are listed in insertion order. -/
def lookupKey : List (String × Val) → String → Option Val
  | [], _ => none
  | (k', v') :: rest, k => if k' = k then some v' else lookupKey rest k

/-- `d[k] = v` on a Python dict: replace the value at an existing key,
else append the new entry. -/
def setKey : List (String × Val) → String → Val → List (String × Val)
  | [], k, v => [(k, v)]
  | (k', v') :: rest, k, v =>
    if k' = k then (k, v) :: rest else (k', v') :: setKey rest k v

/-- A raw YNAB transaction record: a Python dict. -/
abbrev Txn := List (String × Val)

/-- Python truthiness, as used by `not transaction['approved']`. -/
def Val.truthy : Val → Bool
  | .str s => !(s == "")
  | .int n => !(n == 0)
  | .float q => !(q == 0)
  | .bool b => b
  | .dict es => !es.isEmpty
  | .list xs => !xs.isEmpty

/-- Subscription `d[k]` on a value: `KeyError` when the key is absent
from a dict, `TypeError` when the value is not a dict at all. -/
def Val.getItem : Val → String → Except PyError Val
  | .dict es, k =>
    match lookupKey es k with
    | some v => .ok v
    | none => .error .keyError
  | _, _ => .error .typeError

/-- Renders the milliunit quantity `m` the way Python prints the float
`m / 1000` for the magnitudes this program handles: optional sign,
integer part, `.`, and the fractional digits with trailing zeros
removed (but at least one digit, so whole amounts end in `.0`). -/
def milliStr (m : Int) : String :=
  let a := m.natAbs
  let intPart := a / 1000
  let frac := a % 1000
  let fracStr :=
    if frac = 0 then "0"
    else if frac % 100 = 0 then toString (frac / 100)
    else if frac % 10 = 0 then
      (if frac / 10 < 10 then "0" ++ toString (frac / 10) else toString (frac / 10))
    else
      (if frac < 10 then "00" ++ toString frac
       else if frac < 100 then "0" ++ toString frac
       else toString frac)
  (if m < 0 then "-" else "") ++ toString intPart ++ "." ++ fracStr

/-- Python `str` on a float, for the floats this program produces: every
one of them is some `v / 1000` with `v` an integer, so its denominator
divides 1000 and its exact decimal rendering is what Python prints.
(The fallback branch is unreachable for values the script creates.) -/
def pyFloatStr (q : Rat) : String :=
  if q.den ∣ 1000 then milliStr (q.num * ((1000 / q.den : Nat) : Int))
  else toString q.num ++ "/" ++ toString q.den

/-- Python `str(...)` as applied by the formatter to transaction field
values.  The script only ever stringifies scalar fields (the six
`YNAB_COLUMNS`), so container rendering is left as an opaque marker. -/
def Val.pystr : Val → String
  | .str s => s
  | .int n => toString n
  | .float q => pyFloatStr q
  | .bool b => if b then "True" else "False"
  | .dict _ => "<dict>"
  | .list _ => "<list>"

/-- `convert_milliunits_to_dollar_amount` (lines 148-153):
`float(val / 1000)`, true division.  Written with `Rat.divInt` so that
it evaluates inside the kernel (`Rat.div` is irreducible); the lemma
`convert_eq_div` states that this is exactly `val / 1000`. -/
def convert_milliunits_to_dollar_amount (val : Rat) : Rat :=
  Rat.divInt val.num (val.den * 1000)

/-- A transaction field value as a number, for `val / 1000`: Python
accepts int and float here and raises `TypeError` otherwise. -/
def Val.asRat : Val → Option Rat
  | .int n => some (n : Rat)
  | .float q => some q
  | _ => none

/-- `convert_milliunits_to_dollar_amount` applied to a dict value:
`float(val / 1000)` wrapped back into a Python float. -/
def convertVal (v : Val) : Option Val :=
  (v.asRat).map (fun r => Val.float (convert_milliunits_to_dollar_amount r))

/-- The filter on line 125:
`YNAB_TXNS_APPROVED_ONLY and 'approved' in transaction and not transaction['approved']`. -/
def skipTxn (t : Txn) : Bool :=
  YNAB_TXNS_APPROVED_ONLY &&
    (match lookupKey t "approved" with
     | some v => !v.truthy
     | none => false)

/-- The inner column loop of `format_ynab_transactions` (lines 128-133):
builds `relevant_txn_columns` over the given column list, converting and
overwriting the `amount` field in place.  `none` models the `KeyError` /
`TypeError` Python would raise on a missing or non-numeric field. -/
def formatColumns : Txn → List String → Option (List String × Txn)
  | txn, [] => some ([], txn)
  | txn, col :: cols =>
    if col = "amount" then
      match lookupKey txn col with
      | none => none
      | some v =>
        match convertVal v with
        | none => none
        | some v' =>
          match formatColumns (setKey txn col v') cols with
          | none => none
          | some (cells, txn') => some (Val.pystr v' :: cells, txn')
    else
      match lookupKey txn col with
      | none => none
      | some v =>
        match formatColumns txn cols with
        | none => none
        | some (cells, txn') => some (Val.pystr v :: cells, txn')

/-- The outer loop of `format_ynab_transactions` (lines 124-134): the
produced data rows, paired with the post-call state of the caller's
transaction records (the loop mutates each non-skipped dict). -/
def formatTxns : List Txn → Option (List (List String) × List Txn)
  | [] => some ([], [])
  | txn :: rest =>
    if skipTxn txn then
      match formatTxns rest with
      | none => none
      | some (rows, outs) => some (rows, txn :: outs)
    else
      match formatColumns txn YNAB_COLUMNS with
      | none => none
      | some (cells, txn') =>
        match formatTxns rest with
        | none => none
        | some (rows, outs) => some (cells :: rows, txn' :: outs)

/-- The process-wide mutable state: the current contents of the
module-level `GSHEETS_COLUMNS` list object. -/
structure PyState where
  gsheets_columns : List String
deriving DecidableEq, Repr

/-- The synthetic header cell `'Time Updated: %s' % time.ctime()`
(line 121), with the clock reading passed in. -/
def timeUpdatedCell (now : String) : String :=
  "Time Updated: " ++ now

/-- `format_ynab_transactions` (lines 119-136).  `header` aliases the
module-level list, so the appended timestamp cell both lands in the
returned table and persists in the module state.  Returns the table,
the caller's (mutated) raw transaction list, and the new module state;
`none` models an uncaught exception from the loop body. -/
def format_ynab_transactions (now : String) (raw_txns : List Txn) (s : PyState) :
    Option (List (List String) × List Txn × PyState) :=
  let header := s.gsheets_columns ++ [timeUpdatedCell now]
  match formatTxns raw_txns with
  | none => none
  | some (rows, outs) => some (header :: rows, outs, ⟨header⟩)

/-- The local filesystem as the script sees it: `path.exists`, and the
result of `json.load` on a file (for the files the script opens). -/
structure FileSystem where
  pathExists : String → Bool
  jsonLoad : String → Val

/-- `AuthData` (lines 31-46): the two credential artifacts after
`__init__` ran. -/
structure AuthData where
  gsheet_file : String
  ynab_file_dict : Val

/-- `AuthData.__init__` (lines 35-46): validate both paths exist
(`FileNotFoundError` otherwise), then parse the YNAB file as JSON. -/
def AuthData.init (fs : FileSystem) (gsheet_file ynab_file : String) :
    Except PyError AuthData :=
  if !fs.pathExists gsheet_file then .error .fileNotFound
  else if !fs.pathExists ynab_file then .error .fileNotFound
  else .ok ⟨gsheet_file, fs.jsonLoad ynab_file⟩

/-- `AuthData.get_gsheet_file` (lines 48-49). -/
def AuthData.get_gsheet_file (a : AuthData) : String :=
  a.gsheet_file

/-- `AuthData.get_ynab_token` (lines 51-55): `KeyError` when the fixed
key is absent, else the stored JSON value.  (`Val.getItem` also covers
the `TypeError` Python raises from `in` when the parsed file was not a
JSON object.) -/
def AuthData.get_ynab_token (a : AuthData) : Except PyError Val :=
  a.ynab_file_dict.getItem YNAB_TOKEN_KEY

/-- `AuthData.get_ynab_budget` (lines 57-61). -/
def AuthData.get_ynab_budget (a : AuthData) : Except PyError Val :=
  a.ynab_file_dict.getItem YNAB_BUDGET_ID_KEY

/-- One HTTP response from the YNAB endpoint: its status code and its
parsed JSON body (`response.json()`). -/
structure Response where
  status_code : Nat
  body : Val

/-- `response.json()['data']['transactions']` (line 114). -/
def extract_transactions (body : Val) : Except PyError Val := do
  let d ← body.getItem "data"
  d.getItem "transactions"

/-- One iteration of the fetch loop (lines 102-114): build the endpoint
from the budget id, send the request with the bearer token, log on a
non-200 status (the status is otherwise ignored), and overwrite
`txns_list` with the parsed body's transaction list. -/
def fetchOnce (auth : AuthData) (net : Nat → Response) (i : Nat) :
    Except PyError Val := do
  let _budget ← auth.get_ynab_budget
  let _token ← auth.get_ynab_token
  extract_transactions (net i).body

/-- `get_ynab_transactions` (lines 100-116): `txns_list = []`, then a
fixed-count loop whose every iteration unconditionally replaces
`txns_list`; the network is the oracle `net` giving attempt `i`'s
response. -/
def get_ynab_transactions (auth : AuthData) (net : Nat → Response) :
    Except PyError Val :=
  (List.range YNAB_FETCH_RETRIES).foldlM
    (fun _txns_list i => fetchOnce auth net i) (Val.list [])

/-- The single `worksheet.update` call issued by
`post_gsheets_transactions`: which service-account file authenticated,
which spreadsheet and worksheet were opened, and what range and values
were written. -/
structure SheetWrite where
  service_account_file : String
  spreadsheet : String
  worksheet : String
  sheet_range : String
  values : List (List String)
deriving DecidableEq, Repr

/-- `post_gsheets_transactions` (lines 139-145): one update of range
`"A:Z"` on the fixed worksheet of the fixed spreadsheet. -/
def post_gsheets_transactions (auth : AuthData) (transaction_sheet : List (List String)) :
    SheetWrite :=
  ⟨auth.get_gsheet_file, GSHEET_SPREADSHEET_NAME, GSHEET_TXNS_SHEET_NAME,
    "A:Z", transaction_sheet⟩

/-- Several invocations of `format_ynab_transactions` in one process,
threading the module-level list state; each call supplies its clock
reading and raw transaction list.  Returns the tables in call order. -/
def runFormats : List (String × List Txn) → PyState →
    Option (List (List (List String)) × PyState)
  | [], s => some ([], s)
  | (now, raw) :: rest, s =>
    match format_ynab_transactions now raw s with
    | none => none
    | some (table, _outs, s') =>
      match runFormats rest s' with
      | none => none
      | some (tables, s'') => some (table :: tables, s'')

/-! ## Basic lemmas about the embedding -/

/-- `convert_milliunits_to_dollar_amount` is exactly division by 1000. -/
theorem convert_eq_div (val : Rat) :
    convert_milliunits_to_dollar_amount val = val / 1000 := by
  rw [convert_milliunits_to_dollar_amount, Rat.divInt_eq_div]
  push_cast
  rw [div_mul_eq_div_div, Rat.num_div_den]

/-- Writing a key then reading it back gives the written value. -/
theorem lookupKey_setKey_self (t : List (String × Val)) (k : String) (v : Val) :
    lookupKey (setKey t k v) k = some v := by
  induction t with
  | nil => simp [setKey, lookupKey]
  | cons p rest ih =>
    obtain ⟨k', v'⟩ := p
    by_cases hk : k' = k
    · simp [setKey, hk, lookupKey]
    · simp [setKey, hk, lookupKey, ih]

/-- Writing a key leaves every other key's value unchanged. -/
theorem lookupKey_setKey_ne (t : List (String × Val)) (k c : String) (v : Val)
    (hne : c ≠ k) : lookupKey (setKey t k v) c = lookupKey t c := by
  induction t with
  | nil =>
    simp only [setKey, lookupKey]
    rw [if_neg (fun h => hne h.symm)]
  | cons p rest ih =>
    obtain ⟨k', v'⟩ := p
    by_cases hk : k' = k
    · subst hk
      simp only [setKey, if_pos rfl, lookupKey]
      rw [if_neg (fun h => hne h.symm), if_neg (fun h => hne h.symm)]
    · simp only [setKey, if_neg hk, lookupKey, ih]

/-- Forward computation of the column loop on the six YNAB columns:
with every source field present and a numeric amount, the produced
cells are the six stringified values in the fixed column order, and the
transaction comes back with only its `amount` field overwritten. -/
theorem formatColumns_ynab_eq (t : Txn) (v1 v2 v3 v4 v5 v : Val) (q : Rat)
    (h1 : lookupKey t "date" = some v1)
    (h2 : lookupKey t "account_name" = some v2)
    (h3 : lookupKey t "payee_name" = some v3)
    (h4 : lookupKey t "memo" = some v4)
    (h5 : lookupKey t "category_name" = some v5)
    (h6 : lookupKey t "amount" = some v)
    (hq : v.asRat = some q) :
    formatColumns t YNAB_COLUMNS =
      some ([v1.pystr, v2.pystr, v3.pystr, v4.pystr, v5.pystr,
             pyFloatStr (convert_milliunits_to_dollar_amount q)],
            setKey t "amount" (.float (convert_milliunits_to_dollar_amount q))) := by
  simp +decide only [YNAB_COLUMNS, formatColumns, ite_true, ite_false,
    h1, h2, h3, h4, h5, h6, convertVal, hq, Option.map_some', Val.pystr]

/-- Inversion of the column loop on the six YNAB columns: success means
every source field was present, the amount was numeric, the cells are
the six stringified values, and the transaction's `amount` field was
overwritten with the converted value. -/
theorem formatColumns_ynab_inv (t : Txn) (cells : List String) (t' : Txn)
    (h : formatColumns t YNAB_COLUMNS = some (cells, t')) :
    ∃ v1 v2 v3 v4 v5 v q,
      lookupKey t "date" = some v1 ∧
      lookupKey t "account_name" = some v2 ∧
      lookupKey t "payee_name" = some v3 ∧
      lookupKey t "memo" = some v4 ∧
      lookupKey t "category_name" = some v5 ∧
      lookupKey t "amount" = some v ∧
      v.asRat = some q ∧
      t' = setKey t "amount" (.float (convert_milliunits_to_dollar_amount q)) ∧
      cells = [v1.pystr, v2.pystr, v3.pystr, v4.pystr, v5.pystr,
               pyFloatStr (convert_milliunits_to_dollar_amount q)] := by
  simp +decide only [YNAB_COLUMNS, formatColumns, ite_true, ite_false, convertVal] at h
  rcases e1 : lookupKey t "date" with _ | v1
  · simp only [e1] at h
    exact Option.noConfusion h
  simp only [e1] at h
  rcases e2 : lookupKey t "account_name" with _ | v2
  · simp only [e2] at h
    exact Option.noConfusion h
  simp only [e2] at h
  rcases e3 : lookupKey t "payee_name" with _ | v3
  · simp only [e3] at h
    exact Option.noConfusion h
  simp only [e3] at h
  rcases e4 : lookupKey t "memo" with _ | v4
  · simp only [e4] at h
    exact Option.noConfusion h
  simp only [e4] at h
  rcases e5 : lookupKey t "category_name" with _ | v5
  · simp only [e5] at h
    exact Option.noConfusion h
  simp only [e5] at h
  rcases e6 : lookupKey t "amount" with _ | v
  · simp only [e6] at h
    exact Option.noConfusion h
  simp only [e6] at h
  rcases e7 : Val.asRat v with _ | q
  · simp only [e7, Option.map_none'] at h
    exact Option.noConfusion h
  simp only [e7, Option.map_some', Option.some_inj, Prod.mk.injEq] at h
  exact ⟨v1, v2, v3, v4, v5, v, q, rfl, rfl, rfl, rfl, rfl, rfl, e7,
    h.2.symm, h.1.symm⟩

/-- The outer loop yields one output transaction per input transaction
and one data row per input transaction surviving the approval filter. -/
theorem formatTxns_lengths (raw : List Txn) (rows : List (List String)) (outs : List Txn)
    (h : formatTxns raw = some (rows, outs)) :
    outs.length = raw.length ∧
    rows.length = (raw.filter (fun t => !skipTxn t)).length := by
  induction raw generalizing rows outs with
  | nil =>
    simp only [formatTxns, Option.some_inj, Prod.mk.injEq] at h
    simp [← h.1, ← h.2]
  | cons txn rest ih =>
    simp only [formatTxns] at h
    cases hs : skipTxn txn with
    | true =>
      rw [hs] at h
      simp only [if_true] at h
      rcases hr : formatTxns rest with _ | ⟨rows', outs'⟩
      · rw [hr] at h
        exact Option.noConfusion h
      rw [hr] at h
      simp only [Option.some_inj, Prod.mk.injEq] at h
      obtain ⟨hrows, houts⟩ := h
      obtain ⟨ih1, ih2⟩ := ih rows' outs' hr
      subst hrows houts
      simp [List.filter, hs, ih1, ih2]
    | false =>
      rw [hs] at h
      simp only [Bool.false_eq_true, if_false] at h
      rcases hc : formatColumns txn YNAB_COLUMNS with _ | ⟨cells, txn'⟩
      · rw [hc] at h
        exact Option.noConfusion h
      rw [hc] at h
      rcases hr : formatTxns rest with _ | ⟨rows', outs'⟩
      · rw [hr] at h
        exact Option.noConfusion h
      rw [hr] at h
      simp only [Option.some_inj, Prod.mk.injEq] at h
      obtain ⟨hrows, houts⟩ := h
      obtain ⟨ih1, ih2⟩ := ih rows' outs' hr
      subst hrows houts
      simp [List.filter, hs, ih1, ih2]

/-- Every data row the outer loop produces has exactly six cells. -/
theorem formatTxns_row_cells (raw : List Txn) (rows : List (List String)) (outs : List Txn)
    (h : formatTxns raw = some (rows, outs)) :
    ∀ row ∈ rows, row.length = 6 := by
  induction raw generalizing rows outs with
  | nil =>
    simp only [formatTxns, Option.some_inj, Prod.mk.injEq] at h
    rw [← h.1]
    simp
  | cons txn rest ih =>
    simp only [formatTxns] at h
    cases hs : skipTxn txn with
    | true =>
      rw [hs] at h
      simp only [if_true] at h
      rcases hr : formatTxns rest with _ | ⟨rows', outs'⟩
      · rw [hr] at h
        exact Option.noConfusion h
      rw [hr] at h
      simp only [Option.some_inj, Prod.mk.injEq] at h
      rw [← h.1]
      exact ih rows' outs' hr
    | false =>
      rw [hs] at h
      simp only [Bool.false_eq_true, if_false] at h
      rcases hc : formatColumns txn YNAB_COLUMNS with _ | ⟨cells, txn'⟩
      · rw [hc] at h
        exact Option.noConfusion h
      rw [hc] at h
      rcases hr : formatTxns rest with _ | ⟨rows', outs'⟩
      · rw [hr] at h
        exact Option.noConfusion h
      rw [hr] at h
      simp only [Option.some_inj, Prod.mk.injEq] at h
      rw [← h.1]
      intro row hrow
      rcases List.mem_cons.mp hrow with hhead | hmem
      · obtain ⟨v1, v2, v3, v4, v5, v, q, _, _, _, _, _, _, _, _, hcells⟩ :=
          formatColumns_ynab_inv txn cells txn' hc
        rw [hhead, hcells]
        rfl
      · exact ih rows' outs' hr row hmem

/-- What the outer loop does to the caller's transaction records:
filtered-out transactions come back untouched, every other one comes
back with exactly its `amount` field overwritten by the converted
value. -/
theorem formatTxns_outs (raw : List Txn) (rows : List (List String)) (outs : List Txn)
    (h : formatTxns raw = some (rows, outs)) :
    List.Forall₂ (fun t t' =>
      (skipTxn t = true → t' = t) ∧
      (skipTxn t = false → ∃ v q, lookupKey t "amount" = some v ∧ v.asRat = some q ∧
        t' = setKey t "amount" (.float (convert_milliunits_to_dollar_amount q))))
      raw outs := by
  induction raw generalizing rows outs with
  | nil =>
    simp only [formatTxns, Option.some_inj, Prod.mk.injEq] at h
    rw [← h.2]
    exact .nil
  | cons txn rest ih =>
    simp only [formatTxns] at h
    cases hs : skipTxn txn with
    | true =>
      rw [hs] at h
      simp only [if_true] at h
      rcases hr : formatTxns rest with _ | ⟨rows', outs'⟩
      · rw [hr] at h
        exact Option.noConfusion h
      rw [hr] at h
      simp only [Option.some_inj, Prod.mk.injEq] at h
      rw [← h.2]
      exact .cons ⟨fun _ => rfl, fun hs' => absurd hs (by rw [hs']; exact Bool.false_ne_true)⟩
        (ih rows' outs' hr)
    | false =>
      rw [hs] at h
      simp only [Bool.false_eq_true, if_false] at h
      rcases hc : formatColumns txn YNAB_COLUMNS with _ | ⟨cells, txn'⟩
      · rw [hc] at h
        exact Option.noConfusion h
      rw [hc] at h
      rcases hr : formatTxns rest with _ | ⟨rows', outs'⟩
      · rw [hr] at h
        exact Option.noConfusion h
      rw [hr] at h
      simp only [Option.some_inj, Prod.mk.injEq] at h
      rw [← h.2]
      obtain ⟨v1, v2, v3, v4, v5, v, q, _, _, _, _, _, h6, h7, hstate, _⟩ :=
        formatColumns_ynab_inv txn cells txn' hc
      exact .cons
        ⟨fun hs' => absurd hs' (by rw [hs]; exact Bool.false_ne_true),
         fun _ => ⟨v, q, h6, h7, hstate⟩⟩
        (ih rows' outs' hr)

/-- Unpacking one successful formatter invocation: the table is the
(timestamp-augmented) header in front of the data rows, and the module
state afterwards holds exactly that augmented header list. -/
theorem format_ynab_transactions_inv (now : String) (raw : List Txn) (s : PyState)
    (table : List (List String)) (outs : List Txn) (s' : PyState)
    (h : format_ynab_transactions now raw s = some (table, outs, s')) :
    ∃ rows, formatTxns raw = some (rows, outs) ∧
      table = (s.gsheets_columns ++ [timeUpdatedCell now]) :: rows ∧
      s' = ⟨s.gsheets_columns ++ [timeUpdatedCell now]⟩ := by
  simp only [format_ynab_transactions] at h
  split at h
  · exact Option.noConfusion h
  rename_i rows outs₂ hf
  simp only [Option.some_inj, Prod.mk.injEq] at h
  obtain ⟨h1, h2, h3⟩ := h
  refine ⟨rows, ?_, h1.symm, h3.symm⟩
  rw [hf, h2]

/-- State evolution across repeated formatter invocations in one
process: each call appends one timestamp cell to the shared column
list, and each produced table's header row is the value of the shared
list right after that call. -/
theorem runFormats_state (calls : List (String × List Txn)) :
    ∀ s tables s', runFormats calls s = some (tables, s') →
      s'.gsheets_columns = s.gsheets_columns ++ calls.map (fun c => timeUpdatedCell c.1) ∧
      tables.length = calls.length ∧
      (∀ t, tables.getLast? = some t → t.head? = some s'.gsheets_columns) := by
  induction calls with
  | nil =>
    intro s tables s' h
    simp only [runFormats, Option.some_inj, Prod.mk.injEq] at h
    obtain ⟨h1, h2⟩ := h
    subst h2
    refine ⟨by simp, by rw [← h1]; rfl, ?_⟩
    intro t ht
    rw [← h1] at ht
    exact Option.noConfusion ht
  | cons c rest ih =>
    intro s tables s' h
    obtain ⟨now, raw⟩ := c
    simp only [runFormats] at h
    split at h
    · exact Option.noConfusion h
    rename_i table outs s₁ hf
    split at h
    · exact Option.noConfusion h
    rename_i tables' s₂ hrest
    simp only [Option.some_inj, Prod.mk.injEq] at h
    obtain ⟨htab, hs⟩ := h
    obtain ⟨rows, _, htable, hs₁⟩ := format_ynab_transactions_inv now raw s table outs s₁ hf
    obtain ⟨ih1, ih2, ih3⟩ := ih s₁ tables' s₂ hrest
    subst hs
    constructor
    · rw [ih1, hs₁]
      simp
    constructor
    · rw [← htab]
      simp [ih2]
    · intro t ht
      rw [← htab] at ht
      cases tables' with
      | nil =>
        simp only [List.getLast?_singleton, Option.some_inj] at ht
        simp only [List.length_nil] at ih2
        have hrestnil : rest = [] := List.eq_nil_of_length_eq_zero ih2.symm
        subst hrestnil
        simp only [runFormats, Option.some_inj, Prod.mk.injEq] at hrest
        rw [← ht, htable, ← hrest.2, hs₁]
        simp
      | cons t₂ ts =>
        rw [List.getLast?_cons_cons] at ht
        exact ih3 t ht

/-! ## Claims -/

/-- Claim C7, counterexample: the claimed identity
`convert(v)/1000 == convert(v/1000 * 1000)` fails at `v = 1000`, where
the left side is `0.001` and the right side is `1.0`. -/
theorem C7_convert_counterexample :
    ¬ (convert_milliunits_to_dollar_amount 1000 / 1000 =
       convert_milliunits_to_dollar_amount ((1000 : Rat) / 1000 * 1000)) := by
  rw [convert_eq_div, convert_eq_div]
  norm_num

/-- Claim C7 (amended): the milliunits-to-currency conversion divides
by 1000 — `convert(v) = v/1000` for every integer `v`, hence
`convert(v) == convert(v/1000 * 1000)` — and `convert(1000) == 1.0`,
`convert(-500) == -0.5`. -/
theorem C7_convert_divides_by_1000 (v : Int) :
    convert_milliunits_to_dollar_amount (v : Rat) = (v : Rat) / 1000 ∧
    convert_milliunits_to_dollar_amount (v : Rat) =
      convert_milliunits_to_dollar_amount ((v : Rat) / 1000 * 1000) ∧
    convert_milliunits_to_dollar_amount 1000 = 1 ∧
    convert_milliunits_to_dollar_amount (-500) = -(1 / 2) := by
  simp only [convert_eq_div]
  refine ⟨trivial, ?_, by norm_num, by norm_num⟩
  rw [div_mul_cancel₀ ((v : Rat)) (show (1000 : Rat) ≠ 0 by norm_num)]

/-- Claim C1: for every raw transaction with fields `date`,
`account_name`, `payee_name`, `memo`, `category_name` and an integer
`amount` (and not excluded by the approval filter), the formatter
produces the six string cells
`[date, account_name, payee_name, memo, category_name, amount/1000 stringified]`
in that fixed order, matching the header's column order. -/
theorem C1_formatted_row (now d a p m c : String) (v : Int) (txn : Txn)
    (hd : lookupKey txn "date" = some (.str d))
    (ha : lookupKey txn "account_name" = some (.str a))
    (hp : lookupKey txn "payee_name" = some (.str p))
    (hm : lookupKey txn "memo" = some (.str m))
    (hc : lookupKey txn "category_name" = some (.str c))
    (hv : lookupKey txn "amount" = some (.int v))
    (happ : skipTxn txn = false) :
    format_ynab_transactions now [txn] ⟨GSHEETS_COLUMNS⟩ =
      some ([GSHEETS_COLUMNS ++ [timeUpdatedCell now],
             [d, a, p, m, c, pyFloatStr (convert_milliunits_to_dollar_amount (v : Rat))]],
            [setKey txn "amount" (.float (convert_milliunits_to_dollar_amount (v : Rat)))],
            ⟨GSHEETS_COLUMNS ++ [timeUpdatedCell now]⟩) := by
  have hcols := formatColumns_ynab_eq txn (.str d) (.str a) (.str p) (.str m) (.str c)
    (.int v) (v : Rat) hd ha hp hm hc hv rfl
  simp only [format_ynab_transactions, formatTxns, happ, Bool.false_eq_true, if_false,
    hcols, Val.pystr]

/-- Witness for C1: the spec's concrete transaction
`{date:"2024-01-01", account_name:"Checking", payee_name:"Store",
memo:"m", category_name:"Food", amount:-12340, approved:true}` formats
to the data row `["2024-01-01","Checking","Store","m","Food","-12.34"]`. -/
theorem C1_formatted_row_witness :
    format_ynab_transactions "Mon Jan  1 00:00:00 2024"
      [[("date", Val.str "2024-01-01"), ("account_name", Val.str "Checking"),
        ("payee_name", Val.str "Store"), ("memo", Val.str "m"),
        ("category_name", Val.str "Food"), ("amount", Val.int (-12340)),
        ("approved", Val.bool true)]] ⟨GSHEETS_COLUMNS⟩ =
      some ([GSHEETS_COLUMNS ++ [timeUpdatedCell "Mon Jan  1 00:00:00 2024"],
             ["2024-01-01", "Checking", "Store", "m", "Food", "-12.34"]],
            [[("date", Val.str "2024-01-01"), ("account_name", Val.str "Checking"),
              ("payee_name", Val.str "Store"), ("memo", Val.str "m"),
              ("category_name", Val.str "Food"),
              ("amount", Val.float (convert_milliunits_to_dollar_amount ((-12340 : Int) : Rat))),
              ("approved", Val.bool true)]],
            ⟨GSHEETS_COLUMNS ++ [timeUpdatedCell "Mon Jan  1 00:00:00 2024"]⟩) :=
  C1_formatted_row "Mon Jan  1 00:00:00 2024" "2024-01-01" "Checking" "Store" "m" "Food"
    (-12340)
    [("date", Val.str "2024-01-01"), ("account_name", Val.str "Checking"),
     ("payee_name", Val.str "Store"), ("memo", Val.str "m"),
     ("category_name", Val.str "Food"), ("amount", Val.int (-12340)),
     ("approved", Val.bool true)]
    rfl rfl rfl rfl rfl rfl rfl

/-- Claim C5: with approved-only filtering enabled (the constant
`YNAB_TXNS_APPROVED_ONLY` is `true`), a transaction whose `approved`
field is `false` produces no output row (and is returned untouched),
while a transaction lacking the `approved` field entirely is included
(treated as implicitly approved). -/
theorem C5_approved_filter (now : String) (s : PyState) (txn : Txn) :
    (lookupKey txn "approved" = some (Val.bool false) →
      format_ynab_transactions now [txn] s =
        some ([s.gsheets_columns ++ [timeUpdatedCell now]], [txn],
              ⟨s.gsheets_columns ++ [timeUpdatedCell now]⟩)) ∧
    (lookupKey txn "approved" = none →
      ∀ cells txn', formatColumns txn YNAB_COLUMNS = some (cells, txn') →
        format_ynab_transactions now [txn] s =
          some ([s.gsheets_columns ++ [timeUpdatedCell now], cells], [txn'],
                ⟨s.gsheets_columns ++ [timeUpdatedCell now]⟩)) := by
  constructor
  · intro happ
    have hs : skipTxn txn = true := by
      simp [skipTxn, happ, Val.truthy, YNAB_TXNS_APPROVED_ONLY]
    simp [format_ynab_transactions, formatTxns, hs]
  · intro happ cells txn' hcols
    have hs : skipTxn txn = false := by
      simp [skipTxn, happ, YNAB_TXNS_APPROVED_ONLY]
    simp [format_ynab_transactions, formatTxns, hs, hcols]

/-- Witness for C5: the C1 transaction with `approved:false` yields a
table with no data row, while the same transaction without any
`approved` field yields one data row. -/
theorem C5_approved_filter_witness :
    format_ynab_transactions "t"
      [[("date", Val.str "2024-01-01"), ("account_name", Val.str "Checking"),
        ("payee_name", Val.str "Store"), ("memo", Val.str "m"),
        ("category_name", Val.str "Food"), ("amount", Val.int (-12340)),
        ("approved", Val.bool false)]] ⟨GSHEETS_COLUMNS⟩ =
      some ([GSHEETS_COLUMNS ++ [timeUpdatedCell "t"]],
            [[("date", Val.str "2024-01-01"), ("account_name", Val.str "Checking"),
              ("payee_name", Val.str "Store"), ("memo", Val.str "m"),
              ("category_name", Val.str "Food"), ("amount", Val.int (-12340)),
              ("approved", Val.bool false)]],
            ⟨GSHEETS_COLUMNS ++ [timeUpdatedCell "t"]⟩) ∧
    format_ynab_transactions "t"
      [[("date", Val.str "2024-01-01"), ("account_name", Val.str "Checking"),
        ("payee_name", Val.str "Store"), ("memo", Val.str "m"),
        ("category_name", Val.str "Food"), ("amount", Val.int (-12340))]]
      ⟨GSHEETS_COLUMNS⟩ =
      some ([GSHEETS_COLUMNS ++ [timeUpdatedCell "t"],
             ["2024-01-01", "Checking", "Store", "m", "Food", "-12.34"]],
            [[("date", Val.str "2024-01-01"), ("account_name", Val.str "Checking"),
              ("payee_name", Val.str "Store"), ("memo", Val.str "m"),
              ("category_name", Val.str "Food"),
              ("amount", Val.float (convert_milliunits_to_dollar_amount ((-12340 : Int) : Rat)))]],
            ⟨GSHEETS_COLUMNS ++ [timeUpdatedCell "t"]⟩) :=
  ⟨(C5_approved_filter "t" ⟨GSHEETS_COLUMNS⟩
      [("date", Val.str "2024-01-01"), ("account_name", Val.str "Checking"),
       ("payee_name", Val.str "Store"), ("memo", Val.str "m"),
       ("category_name", Val.str "Food"), ("amount", Val.int (-12340)),
       ("approved", Val.bool false)]).1 rfl,
   (C5_approved_filter "t" ⟨GSHEETS_COLUMNS⟩
      [("date", Val.str "2024-01-01"), ("account_name", Val.str "Checking"),
       ("payee_name", Val.str "Store"), ("memo", Val.str "m"),
       ("category_name", Val.str "Food"), ("amount", Val.int (-12340))]).2 rfl
     ["2024-01-01", "Checking", "Store", "m", "Food", "-12.34"]
     [("date", Val.str "2024-01-01"), ("account_name", Val.str "Checking"),
      ("payee_name", Val.str "Store"), ("memo", Val.str "m"),
      ("category_name", Val.str "Food"),
      ("amount", Val.float (convert_milliunits_to_dollar_amount ((-12340 : Int) : Rat)))]
     rfl⟩

/-- Claim C6: for every raw transaction list, in the table returned by
the formatter (invoked on the module's initial `GSHEETS_COLUMNS`
state), the header row is the six column names plus one synthetic
timestamp cell (7 cells), while every data row has exactly six cells —
the header has exactly one more element than every data row. -/
theorem C6_header_one_longer (now : String) (raw : List Txn)
    (table : List (List String)) (outs : List Txn) (s' : PyState)
    (h : format_ynab_transactions now raw ⟨GSHEETS_COLUMNS⟩ = some (table, outs, s')) :
    ∃ rows, table = (GSHEETS_COLUMNS ++ [timeUpdatedCell now]) :: rows ∧
      (GSHEETS_COLUMNS ++ [timeUpdatedCell now]).length = 7 ∧
      ∀ row ∈ rows, row.length = 6 := by
  obtain ⟨rows, hrows, htable, _⟩ :=
    format_ynab_transactions_inv now raw ⟨GSHEETS_COLUMNS⟩ table outs s' h
  exact ⟨rows, htable, by simp [GSHEETS_COLUMNS],
    formatTxns_row_cells raw rows outs hrows⟩

/-- Witness for C6 at a one-transaction input: the header has 7 cells
and the single data row has 6. -/
theorem C6_header_one_longer_witness :
    ∃ rows, ([GSHEETS_COLUMNS ++ [timeUpdatedCell "t"],
              ["2024-01-01", "Checking", "Store", "m", "Food", "-12.34"]] :
        List (List String)) = (GSHEETS_COLUMNS ++ [timeUpdatedCell "t"]) :: rows ∧
      (GSHEETS_COLUMNS ++ [timeUpdatedCell "t"]).length = 7 ∧
      ∀ row ∈ rows, row.length = 6 :=
  C6_header_one_longer "t"
    [[("date", Val.str "2024-01-01"), ("account_name", Val.str "Checking"),
      ("payee_name", Val.str "Store"), ("memo", Val.str "m"),
      ("category_name", Val.str "Food"), ("amount", Val.int (-12340)),
      ("approved", Val.bool true)]]
    [GSHEETS_COLUMNS ++ [timeUpdatedCell "t"],
     ["2024-01-01", "Checking", "Store", "m", "Food", "-12.34"]]
    [[("date", Val.str "2024-01-01"), ("account_name", Val.str "Checking"),
      ("payee_name", Val.str "Store"), ("memo", Val.str "m"),
      ("category_name", Val.str "Food"),
      ("amount", Val.float (convert_milliunits_to_dollar_amount ((-12340 : Int) : Rat))),
      ("approved", Val.bool true)]]
    ⟨GSHEETS_COLUMNS ++ [timeUpdatedCell "t"]⟩
    rfl

/-- Claim C8: end-to-end with approved-only filtering enabled — when
the raw transaction list has three transactions of which exactly two
survive the approval filter and formatting succeeds, the table passed
in the single spreadsheet write call has exactly 3 rows (header plus 2
data rows) and is written to the fixed cell range `"A:Z"` of the
configured worksheet of the configured spreadsheet. -/
theorem C8_end_to_end (auth : AuthData) (now : String) (s : PyState) (raw : List Txn)
    (table : List (List String)) (outs : List Txn) (s' : PyState)
    (_hlen : raw.length = 3)
    (hkept : (raw.filter (fun t => !skipTxn t)).length = 2)
    (h : format_ynab_transactions now raw s = some (table, outs, s')) :
    (post_gsheets_transactions auth table).values.length = 3 ∧
    (post_gsheets_transactions auth table).sheet_range = "A:Z" ∧
    (post_gsheets_transactions auth table).worksheet = GSHEET_TXNS_SHEET_NAME ∧
    (post_gsheets_transactions auth table).spreadsheet = GSHEET_SPREADSHEET_NAME := by
  obtain ⟨rows, hrows, htable, _⟩ := format_ynab_transactions_inv now raw s table outs s' h
  obtain ⟨_, hrowslen⟩ := formatTxns_lengths raw rows outs hrows
  refine ⟨?_, rfl, rfl, rfl⟩
  simp [post_gsheets_transactions, htable, hrowslen, hkept]

/-- Witness for C8: two approved transactions (one explicitly, one by
omission of the field) and one unapproved one produce a 3-row table
posted to range `"A:Z"` of the configured worksheet. -/
theorem C8_end_to_end_witness :
    (post_gsheets_transactions ⟨"gs.json", Val.dict []⟩
      [GSHEETS_COLUMNS ++ [timeUpdatedCell "t"],
       ["2024-01-01", "Checking", "Store", "m", "Food", "1.0"],
       ["2024-01-02", "Checking", "Cafe", "n", "Food", "-0.5"]]).values.length = 3 ∧
    (post_gsheets_transactions ⟨"gs.json", Val.dict []⟩
      [GSHEETS_COLUMNS ++ [timeUpdatedCell "t"],
       ["2024-01-01", "Checking", "Store", "m", "Food", "1.0"],
       ["2024-01-02", "Checking", "Cafe", "n", "Food", "-0.5"]]).sheet_range = "A:Z" ∧
    (post_gsheets_transactions ⟨"gs.json", Val.dict []⟩
      [GSHEETS_COLUMNS ++ [timeUpdatedCell "t"],
       ["2024-01-01", "Checking", "Store", "m", "Food", "1.0"],
       ["2024-01-02", "Checking", "Cafe", "n", "Food", "-0.5"]]).worksheet =
      GSHEET_TXNS_SHEET_NAME ∧
    (post_gsheets_transactions ⟨"gs.json", Val.dict []⟩
      [GSHEETS_COLUMNS ++ [timeUpdatedCell "t"],
       ["2024-01-01", "Checking", "Store", "m", "Food", "1.0"],
       ["2024-01-02", "Checking", "Cafe", "n", "Food", "-0.5"]]).spreadsheet =
      GSHEET_SPREADSHEET_NAME :=
  C8_end_to_end ⟨"gs.json", Val.dict []⟩ "t" ⟨GSHEETS_COLUMNS⟩
    [[("date", Val.str "2024-01-01"), ("account_name", Val.str "Checking"),
      ("payee_name", Val.str "Store"), ("memo", Val.str "m"),
      ("category_name", Val.str "Food"), ("amount", Val.int 1000),
      ("approved", Val.bool true)],
     [("date", Val.str "2024-01-02"), ("account_name", Val.str "Checking"),
      ("payee_name", Val.str "Cafe"), ("memo", Val.str "n"),
      ("category_name", Val.str "Food"), ("amount", Val.int (-500))],
     [("date", Val.str "2024-01-03"), ("account_name", Val.str "Checking"),
      ("payee_name", Val.str "Bar"), ("memo", Val.str "o"),
      ("category_name", Val.str "Food"), ("amount", Val.int 2500),
      ("approved", Val.bool false)]]
    [GSHEETS_COLUMNS ++ [timeUpdatedCell "t"],
     ["2024-01-01", "Checking", "Store", "m", "Food", "1.0"],
     ["2024-01-02", "Checking", "Cafe", "n", "Food", "-0.5"]]
    [[("date", Val.str "2024-01-01"), ("account_name", Val.str "Checking"),
      ("payee_name", Val.str "Store"), ("memo", Val.str "m"),
      ("category_name", Val.str "Food"),
      ("amount", Val.float (convert_milliunits_to_dollar_amount ((1000 : Int) : Rat))),
      ("approved", Val.bool true)],
     [("date", Val.str "2024-01-02"), ("account_name", Val.str "Checking"),
      ("payee_name", Val.str "Cafe"), ("memo", Val.str "n"),
      ("category_name", Val.str "Food"),
      ("amount", Val.float (convert_milliunits_to_dollar_amount ((-500 : Int) : Rat)))],
     [("date", Val.str "2024-01-03"), ("account_name", Val.str "Checking"),
      ("payee_name", Val.str "Bar"), ("memo", Val.str "o"),
      ("category_name", Val.str "Food"), ("amount", Val.int 2500),
      ("approved", Val.bool false)]]
    ⟨GSHEETS_COLUMNS ++ [timeUpdatedCell "t"]⟩
    rfl rfl rfl

/-- Claim C9: each formatter invocation appends its timestamp cell to
the shared module-level column list itself (not a fresh copy): after
the `k` invocations in `calls` (in one process, starting from the
module's initial state) the shared list is the six column names
followed by the `k` timestamp cells, and the `k`-th (last) table's
header row is exactly that mutated list. -/
theorem C9_shared_header_mutation (calls : List (String × List Txn))
    (tables : List (List (List String))) (s' : PyState)
    (h : runFormats calls ⟨GSHEETS_COLUMNS⟩ = some (tables, s')) :
    s'.gsheets_columns = GSHEETS_COLUMNS ++ calls.map (fun c => timeUpdatedCell c.1) ∧
    s'.gsheets_columns.length = 6 + calls.length ∧
    tables.length = calls.length ∧
    (∀ t, tables.getLast? = some t → t.head? = some s'.gsheets_columns) := by
  obtain ⟨h1, h2, h3⟩ := runFormats_state calls ⟨GSHEETS_COLUMNS⟩ tables s' h
  exact ⟨h1, by simp [h1, GSHEETS_COLUMNS]; omega, h2, h3⟩

/-- Witness for C9 at two consecutive invocations (`k = 2`): the shared
list ends up with the six names plus two timestamp cells, and the
second table's header carries both timestamp cells. -/
theorem C9_shared_header_mutation_witness :
    (PyState.mk ((GSHEETS_COLUMNS ++ [timeUpdatedCell "t1"]) ++
        [timeUpdatedCell "t2"])).gsheets_columns =
      GSHEETS_COLUMNS ++
        List.map (fun c => timeUpdatedCell c.1)
          [("t1", ([] : List Txn)), ("t2", ([] : List Txn))] ∧
    (PyState.mk ((GSHEETS_COLUMNS ++ [timeUpdatedCell "t1"]) ++
        [timeUpdatedCell "t2"])).gsheets_columns.length =
      6 + ([("t1", ([] : List Txn)), ("t2", ([] : List Txn))]).length ∧
    ([[GSHEETS_COLUMNS ++ [timeUpdatedCell "t1"]],
      [(GSHEETS_COLUMNS ++ [timeUpdatedCell "t1"]) ++ [timeUpdatedCell "t2"]]] :
        List (List (List String))).length =
      ([("t1", ([] : List Txn)), ("t2", ([] : List Txn))]).length ∧
    (∀ t, ([[GSHEETS_COLUMNS ++ [timeUpdatedCell "t1"]],
            [(GSHEETS_COLUMNS ++ [timeUpdatedCell "t1"]) ++ [timeUpdatedCell "t2"]]] :
        List (List (List String))).getLast? = some t →
      t.head? = some (PyState.mk ((GSHEETS_COLUMNS ++ [timeUpdatedCell "t1"]) ++
        [timeUpdatedCell "t2"])).gsheets_columns) :=
  C9_shared_header_mutation [("t1", []), ("t2", [])]
    [[GSHEETS_COLUMNS ++ [timeUpdatedCell "t1"]],
     [(GSHEETS_COLUMNS ++ [timeUpdatedCell "t1"]) ++ [timeUpdatedCell "t2"]]]
    ⟨(GSHEETS_COLUMNS ++ [timeUpdatedCell "t1"]) ++ [timeUpdatedCell "t2"]⟩
    rfl

/-- Claim C10: the formatter mutates its input — every raw transaction
passing the approval filter comes back with its integer `amount` field
overwritten in place by the converted currency value (a float), while
filtered-out transactions are untouched and all fields other than
`amount` are unchanged in every transaction. -/
theorem C10_formatter_mutates_input (now : String) (s : PyState) (raw : List Txn)
    (table : List (List String)) (outs : List Txn) (s' : PyState)
    (h : format_ynab_transactions now raw s = some (table, outs, s')) :
    List.Forall₂ (fun t t' =>
      (skipTxn t = true → t' = t) ∧
      (∀ n : Int, skipTxn t = false → lookupKey t "amount" = some (Val.int n) →
        t' = setKey t "amount" (Val.float (convert_milliunits_to_dollar_amount (n : Rat))) ∧
        lookupKey t' "amount" =
          some (Val.float (convert_milliunits_to_dollar_amount (n : Rat)))) ∧
      (∀ col, col ≠ "amount" → lookupKey t' col = lookupKey t col)) raw outs := by
  obtain ⟨rows, hrows, _, _⟩ := format_ynab_transactions_inv now raw s table outs s' h
  refine (formatTxns_outs raw rows outs hrows).imp ?_
  rintro t t' ⟨hskip, hconv⟩
  refine ⟨hskip, ?_, ?_⟩
  · intro n hs hv
    obtain ⟨v, q, hv', hq, ht'⟩ := hconv hs
    rw [hv] at hv'
    obtain rfl := Option.some.inj hv'
    have hq' : some ((n : Rat)) = some q := hq
    obtain rfl := Option.some.inj hq'
    exact ⟨ht', by rw [ht']; exact lookupKey_setKey_self t "amount" _⟩
  · intro col hcol
    cases hst : skipTxn t with
    | true => rw [hskip hst]
    | false =>
      obtain ⟨v, q, _, _, ht'⟩ := hconv hst
      rw [ht']
      exact lookupKey_setKey_ne t "amount" col _ hcol

/-- Witness for C10 on a two-transaction input: the approved one comes
back with its `amount` replaced by a float and other fields intact, the
unapproved one comes back untouched. -/
theorem C10_formatter_mutates_input_witness :
    List.Forall₂ (fun t t' =>
      (skipTxn t = true → t' = t) ∧
      (∀ n : Int, skipTxn t = false → lookupKey t "amount" = some (Val.int n) →
        t' = setKey t "amount" (Val.float (convert_milliunits_to_dollar_amount (n : Rat))) ∧
        lookupKey t' "amount" =
          some (Val.float (convert_milliunits_to_dollar_amount (n : Rat)))) ∧
      (∀ col, col ≠ "amount" → lookupKey t' col = lookupKey t col))
      [[("date", Val.str "2024-01-01"), ("account_name", Val.str "Checking"),
        ("payee_name", Val.str "Store"), ("memo", Val.str "m"),
        ("category_name", Val.str "Food"), ("amount", Val.int 1000),
        ("approved", Val.bool true)],
       [("date", Val.str "2024-01-03"), ("account_name", Val.str "Checking"),
        ("payee_name", Val.str "Bar"), ("memo", Val.str "o"),
        ("category_name", Val.str "Food"), ("amount", Val.int 2500),
        ("approved", Val.bool false)]]
      [[("date", Val.str "2024-01-01"), ("account_name", Val.str "Checking"),
        ("payee_name", Val.str "Store"), ("memo", Val.str "m"),
        ("category_name", Val.str "Food"),
        ("amount", Val.float (convert_milliunits_to_dollar_amount ((1000 : Int) : Rat))),
        ("approved", Val.bool true)],
       [("date", Val.str "2024-01-03"), ("account_name", Val.str "Checking"),
        ("payee_name", Val.str "Bar"), ("memo", Val.str "o"),
        ("category_name", Val.str "Food"), ("amount", Val.int 2500),
        ("approved", Val.bool false)]] :=
  C10_formatter_mutates_input "t" ⟨GSHEETS_COLUMNS⟩
    [[("date", Val.str "2024-01-01"), ("account_name", Val.str "Checking"),
      ("payee_name", Val.str "Store"), ("memo", Val.str "m"),
      ("category_name", Val.str "Food"), ("amount", Val.int 1000),
      ("approved", Val.bool true)],
     [("date", Val.str "2024-01-03"), ("account_name", Val.str "Checking"),
      ("payee_name", Val.str "Bar"), ("memo", Val.str "o"),
      ("category_name", Val.str "Food"), ("amount", Val.int 2500),
      ("approved", Val.bool false)]]
    [GSHEETS_COLUMNS ++ [timeUpdatedCell "t"],
     ["2024-01-01", "Checking", "Store", "m", "Food", "1.0"]]
    [[("date", Val.str "2024-01-01"), ("account_name", Val.str "Checking"),
      ("payee_name", Val.str "Store"), ("memo", Val.str "m"),
      ("category_name", Val.str "Food"),
      ("amount", Val.float (convert_milliunits_to_dollar_amount ((1000 : Int) : Rat))),
      ("approved", Val.bool true)],
     [("date", Val.str "2024-01-03"), ("account_name", Val.str "Checking"),
      ("payee_name", Val.str "Bar"), ("memo", Val.str "o"),
      ("category_name", Val.str "Food"), ("amount", Val.int 2500),
      ("approved", Val.bool false)]]
    ⟨GSHEETS_COLUMNS ++ [timeUpdatedCell "t"]⟩
    rfl

/-- Claim C2: over the three fetch attempts, each iteration
unconditionally overwrites `txns_list` with that attempt's parsed
transaction list, so whatever the HTTP statuses are (the status is only
logged, never branched on), the fetcher returns exactly the last
attempt's parsed list and discards the earlier attempts' results. -/
theorem C2_fetch_keeps_last_attempt (auth : AuthData) (net : Nat → Response)
    (tok bud l0 l1 l2 : Val)
    (htok : auth.get_ynab_token = .ok tok)
    (hbud : auth.get_ynab_budget = .ok bud)
    (h0 : extract_transactions (net 0).body = .ok l0)
    (h1 : extract_transactions (net 1).body = .ok l1)
    (h2 : extract_transactions (net 2).body = .ok l2) :
    get_ynab_transactions auth net = .ok l2 := by
  have hr : List.range YNAB_FETCH_RETRIES = [0, 1, 2] := rfl
  simp only [get_ynab_transactions, hr, List.foldlM, fetchOnce, htok, hbud,
    h0, h1, h2, bind, Except.bind, pure, Except.pure]

/-- Witness for C2: with attempt statuses 500, 500, 200 and three
distinct parseable bodies, the fetcher returns the third body's list. -/
theorem C2_fetch_keeps_last_attempt_witness :
    get_ynab_transactions
      ⟨"gs.json",
       Val.dict [(YNAB_TOKEN_KEY, Val.str "T"), (YNAB_BUDGET_ID_KEY, Val.str "B")]⟩
      (fun i =>
        if i = 2 then
          ⟨200, Val.dict [("data", Val.dict [("transactions",
            Val.list [Val.str "third"])])]⟩
        else
          ⟨500, Val.dict [("data", Val.dict [("transactions",
            Val.list [Val.str "failed"])])]⟩) =
      .ok (Val.list [Val.str "third"]) :=
  C2_fetch_keeps_last_attempt
    ⟨"gs.json",
     Val.dict [(YNAB_TOKEN_KEY, Val.str "T"), (YNAB_BUDGET_ID_KEY, Val.str "B")]⟩
    (fun i =>
      if i = 2 then
        ⟨200, Val.dict [("data", Val.dict [("transactions",
          Val.list [Val.str "third"])])]⟩
      else
        ⟨500, Val.dict [("data", Val.dict [("transactions",
          Val.list [Val.str "failed"])])]⟩)
    (Val.str "T") (Val.str "B")
    (Val.list [Val.str "failed"]) (Val.list [Val.str "failed"])
    (Val.list [Val.str "third"])
    rfl rfl rfl rfl rfl

/-- Claim C3: when both credential files exist and the budgeting-API
file parses to a JSON object containing the keys `YNAB_TOKEN` and
`YNAB_BUDGET`, construction succeeds, the token accessor returns the
JSON value of `YNAB_TOKEN`, the budget accessor returns the JSON value
of `YNAB_BUDGET`, and the key-file accessor returns the first path
unchanged. -/
theorem C3_loader_accessors (fs : FileSystem) (g y : String)
    (es : List (String × Val)) (tok bud : Val)
    (hg : fs.pathExists g = true) (hy : fs.pathExists y = true)
    (hread : fs.jsonLoad y = Val.dict es)
    (ht : lookupKey es YNAB_TOKEN_KEY = some tok)
    (hb : lookupKey es YNAB_BUDGET_ID_KEY = some bud) :
    ∃ a : AuthData, AuthData.init fs g y = .ok a ∧
      a.get_ynab_token = .ok tok ∧
      a.get_ynab_budget = .ok bud ∧
      a.get_gsheet_file = g := by
  refine ⟨⟨g, fs.jsonLoad y⟩, ?_, ?_, ?_, rfl⟩
  · simp [AuthData.init, hg, hy]
  · simp [AuthData.get_ynab_token, Val.getItem, hread, ht]
  · simp [AuthData.get_ynab_budget, Val.getItem, hread, hb]

/-- Witness for C3 on a concrete two-file filesystem. -/
theorem C3_loader_accessors_witness :
    ∃ a : AuthData,
      AuthData.init
        ⟨fun p => p == "gs.json" || p == "ynab.json",
         fun _ => Val.dict [(YNAB_TOKEN_KEY, Val.str "tok-123"),
                            (YNAB_BUDGET_ID_KEY, Val.str "budget-9")]⟩
        "gs.json" "ynab.json" = .ok a ∧
      a.get_ynab_token = .ok (Val.str "tok-123") ∧
      a.get_ynab_budget = .ok (Val.str "budget-9") ∧
      a.get_gsheet_file = "gs.json" :=
  C3_loader_accessors
    ⟨fun p => p == "gs.json" || p == "ynab.json",
     fun _ => Val.dict [(YNAB_TOKEN_KEY, Val.str "tok-123"),
                        (YNAB_BUDGET_ID_KEY, Val.str "budget-9")]⟩
    "gs.json" "ynab.json"
    [(YNAB_TOKEN_KEY, Val.str "tok-123"), (YNAB_BUDGET_ID_KEY, Val.str "budget-9")]
    (Val.str "tok-123") (Val.str "budget-9")
    rfl rfl rfl rfl rfl

/-- Claim C4: loading fails with `FileNotFoundError` exactly when one
of the two paths does not exist, and a token / budget accessor on a
parsed JSON object fails with `KeyError` exactly when the corresponding
fixed key is absent; in all other cases no such error is raised. -/
theorem C4_loading_errors (fs : FileSystem) (g y : String) (es : List (String × Val)) :
    (AuthData.init fs g y = .error .fileNotFound ↔
      (fs.pathExists g = false ∨ fs.pathExists y = false)) ∧
    (AuthData.get_ynab_token ⟨g, Val.dict es⟩ = .error .keyError ↔
      lookupKey es YNAB_TOKEN_KEY = none) ∧
    (AuthData.get_ynab_budget ⟨g, Val.dict es⟩ = .error .keyError ↔
      lookupKey es YNAB_BUDGET_ID_KEY = none) := by
  refine ⟨?_, ?_, ?_⟩
  · cases hg : fs.pathExists g <;> cases hy : fs.pathExists y <;>
      simp [AuthData.init, hg, hy]
  · cases hl : lookupKey es YNAB_TOKEN_KEY <;>
      simp [AuthData.get_ynab_token, Val.getItem, hl]
  · cases hl : lookupKey es YNAB_BUDGET_ID_KEY <;>
      simp [AuthData.get_ynab_budget, Val.getItem, hl]
